import Mathlib

/-!
Shallow embedding of the Maxwell3D GPU command-processing engine from
src/video_core/engines/maxwell_3d.cpp: the register-write dispatcher, the
macro-call state machine, the macro handlers, the constant-buffer manager,
the query processor and the texture descriptor resolver.

The register layout (the Regs structure of maxwell_3d.h) and the descriptor
record layouts (texture.h) are not part of the sources; the named register
indices, bit-field positions and enumeration values used below are modelled
from the spec's data-model section and marked as such.
-/

namespace Maxwell

/-- Pointwise update of a function-backed store. -/
def updFn {α : Type} (f : Nat → α) (i : Nat) (v : α) : Nat → α :=
  fun j => if j = i then v else f j

/-- Pointwise update of a two-index function-backed store. -/
def updFn2 {α : Type} (f : Nat → Nat → α) (a b : Nat) (v : α) : Nat → Nat → α :=
  fun x y => if x = a ∧ y = b then v else f x y

/-- Extraction of the bit field of width `width` starting at bit `lo`. -/
def getBits (raw lo width : Nat) : Nat := (raw >>> lo) % 2 ^ width

/-- Replacement of the bit field of width `width` starting at bit `lo` by `v`
(the BitField Assign operation). -/
def setBits (raw lo width v : Nat) : Nat :=
  ((raw >>> (lo + width)) <<< (lo + width)) + ((v % 2 ^ width) <<< lo) + raw % 2 ^ lo

/-- Failure modes of the engine: each constructor corresponds to one of the
fatal assertions or unimplemented-feature reports of maxwell_3d.cpp. -/
inductive EngineError where
  | invalidRegister
  | macroArgViolation
  | macroStartOnOddReg
  | macroNotUploaded
  | macroUnimplemented
  | macroArityMismatch
  | codeAddressNonzero
  | constBufferNotBound
  | constBufferOverflow
  | queryModeUnimplemented
  | unsupportedTextureFormat
  | textureBufferNotBound
  deriving DecidableEq, Repr

/-- Observable collaborator calls: the debug-context OnEvent hooks and the
rasterizer AccelerateDrawBatch call, plus the invocation of a macro handler. -/
inductive EngineEvent where
  | commandLoaded
  | commandProcessed
  | incomingBatch
  | finishedBatch
  | drawBatch (isIndexed : Bool)
  | handlerInvoked (handlerName : String) (params : List Nat)
  deriving DecidableEq, Repr

/-- One constant-buffer bind slot (State::ConstBufferInfo). -/
structure ConstBufferEntry where
  enabled : Bool
  index : Nat
  address : Nat
  size : Nat
  deriving DecidableEq, Repr

instance : Inhabited ConstBufferEntry := ⟨⟨false, 0, 0, 0⟩⟩

/-- One shader program slot (State::ShaderStageInfo), set by SetShader. -/
structure ShaderProgramSlot where
  program : Nat
  stage : Nat
  address : Nat
  deriving DecidableEq, Repr

instance : Inhabited ShaderProgramSlot := ⟨⟨0, 0, 0⟩⟩

/-- Texture descriptor fields checked by GetTICEntry. -/
structure TICEntry where
  r_type : Nat
  g_type : Nat
  b_type : Nat
  a_type : Nat
  header_version : Nat
  texture_type : Nat
  deriving DecidableEq, Repr

instance : Inhabited TICEntry := ⟨⟨0, 0, 0, 0, 0, 0⟩⟩

/-- Sampler descriptor record, read verbatim and never inspected. -/
structure TSCEntry where
  raw : Nat
  deriving DecidableEq, Repr

instance : Inhabited TSCEntry := ⟨⟨0⟩⟩

/-- One resolved texture entry (Texture::FullTextureInfo). -/
structure FullTextureInfo where
  index : Nat
  enabled : Bool
  tic : TICEntry
  tsc : TSCEntry
  deriving DecidableEq, Repr

instance : Inhabited FullTextureInfo := ⟨⟨0, false, default, default⟩⟩

/-- The engine state: the flat register file, the per-stage bind-slot tables,
the shader program slots, the macro pending-call state, the uploaded-macro
store, the guest memory (word values keyed by guest virtual address) and the
injected address-translation collaborator. -/
structure Maxwell3DState where
  regs : Nat → Nat
  shaderStages : Nat → Nat → ConstBufferEntry
  shaderPrograms : Nat → ShaderProgramSlot
  executing_macro_id : Nat
  macro_params : List Nat
  uploaded_macros : List (Nat × List Nat)
  mem : Nat → Nat
  translate : Nat → Nat

/-- First register id that is actually a macro call (maxwell_3d.cpp). -/
def MacroRegistersStart : Nat := 0xE00

/-- Modelled from the spec: the register count of the Register File is a
compile-time constant of the missing maxwell_3d.h; it must exceed the macro
register sub-range used by the handler table. -/
def NUM_REGS : Nat := 0xE36

/-- Modelled from the spec: named register indices of the missing Regs layout
(mutually distinct slots of the flat Register File, spec section 3). -/
def CODE_ADDRESS_HIGH : Nat := 0x582

def CODE_ADDRESS_LOW : Nat := 0x583

def DRAW_VERTEX_END_GL : Nat := 0x585

def QUERY_ADDRESS_HIGH : Nat := 0x6C0

def QUERY_ADDRESS_LOW : Nat := 0x6C1

def QUERY_SEQUENCE : Nat := 0x6C2

def QUERY_GET : Nat := 0x6C3

def SHADER_CONFIG_BASE : Nat := 0x800

def CB_SIZE : Nat := 0x8E0

def CB_ADDRESS_HIGH : Nat := 0x8E1

def CB_ADDRESS_LOW : Nat := 0x8E2

def CB_POS : Nat := 0x8E3

def CB_DATA_BASE : Nat := 0x8E4

def CB_BIND_BASE : Nat := 0x904

def TEX_CB_INDEX : Nat := 0x982

def TIC_ADDRESS_HIGH : Nat := 0x55D

def TIC_ADDRESS_LOW : Nat := 0x55E

def TSC_ADDRESS_HIGH : Nat := 0x557

def TSC_ADDRESS_LOW : Nat := 0x558

def TEX_INFO_ADDR_BASE : Nat := 0xD00

def TEX_INFO_SIZE_BASE : Nat := 0xD05

def SSBO_ADDR_HIGH : Nat := 0xD18

def SSBO_ADDR_LOW : Nat := 0xD19

/-- Regs::CodeAddress: the 64-bit code address assembled from its halves. -/
def codeAddress (s : Maxwell3DState) : Nat :=
  (s.regs CODE_ADDRESS_HIGH <<< 32) ||| s.regs CODE_ADDRESS_LOW

/-- Regs::const_buffer::BufferAddress: the active constant-buffer address. -/
def constBufAddr (s : Maxwell3DState) : Nat :=
  (s.regs CB_ADDRESS_HIGH <<< 32) ||| s.regs CB_ADDRESS_LOW

/-- Regs::query::QueryAddress. -/
def queryAddress (s : Maxwell3DState) : Nat :=
  (s.regs QUERY_ADDRESS_HIGH <<< 32) ||| s.regs QUERY_ADDRESS_LOW

/-- Regs::tic::TICAddress. -/
def ticAddress (s : Maxwell3DState) : Nat :=
  (s.regs TIC_ADDRESS_HIGH <<< 32) ||| s.regs TIC_ADDRESS_LOW

/-- Regs::tsc::TSCAddress. -/
def tscAddress (s : Maxwell3DState) : Nat :=
  (s.regs TSC_ADDRESS_HIGH <<< 32) ||| s.regs TSC_ADDRESS_LOW

/-- Regs::ssbo_info::BufferAddress. -/
def ssboAddress (s : Maxwell3DState) : Nat :=
  (s.regs SSBO_ADDR_HIGH <<< 32) ||| s.regs SSBO_ADDR_LOW

/-- Modelled from the spec: the query-get register's mode field (bit position
from the missing layout); mode value 0 is QueryMode::Write. -/
def queryMode (s : Maxwell3DState) : Nat := getBits (s.regs QUERY_GET) 0 2

def QueryModeWrite : Nat := 0

/-- Memory::Read32 through the injected translation collaborator is applied at
call sites; this is the raw 32-bit read at a guest virtual address. -/
def read32 (s : Maxwell3DState) (va : Nat) : Nat := s.mem va % 2 ^ 32

/-- Maxwell3D::MethodInfo: one entry of the static macro handler table. -/
structure MethodInfo where
  methodName : String
  arguments : Nat
  handler : Maxwell3DState → List Nat → Except EngineError Maxwell3DState

/-- Maxwell3D::SubmitMacroCode: stores uploaded microcode under the key
entry * 2 + MacroRegistersStart (32-bit arithmetic). -/
def submitMacroCode (s : Maxwell3DState) (entry : Nat) (code : List Nat) :
    Maxwell3DState :=
  {s with uploaded_macros :=
    ((entry * 2 + MacroRegistersStart) % 2 ^ 32, code) :: s.uploaded_macros}

/-- Maxwell3D::ProcessCBBind: copies the active constant-buffer config and the
valid/index bits of the stage's bind-config register into the bind slot that
register selects (bit 0 = valid, bits 4..8 = index, modelled from the spec). -/
def processCBBind (s : Maxwell3DState) (stage : Nat) : Maxwell3DState :=
  let bind_data := s.regs (CB_BIND_BASE + 8 * stage)
  let idx := getBits bind_data 4 5
  let entry : ConstBufferEntry :=
    { enabled := getBits bind_data 0 1 != 0,
      index := idx,
      address := constBufAddr s,
      size := s.regs CB_SIZE }
  {s with shaderStages := updFn2 s.shaderStages stage idx entry}

/-- Maxwell3D::ProcessCBData: bounds-checked streamed write of one 32-bit word
into the active constant buffer, advancing the write cursor. -/
def processCBData (s : Maxwell3DState) (value : Nat) :
    Except EngineError Maxwell3DState :=
  let buffer_address := constBufAddr s
  if buffer_address = 0 then .error .constBufferNotBound
  else if s.regs CB_POS + 4 ≤ s.regs CB_SIZE then
    let address := s.translate ((buffer_address + s.regs CB_POS) % 2 ^ 64)
    .ok {s with
      mem := updFn s.mem address (value % 2 ^ 32),
      regs := updFn s.regs CB_POS ((s.regs CB_POS + 4) % 2 ^ 32)}
  else .error .constBufferOverflow

/-- Iterated streamed writes (N sequential writes through the data register). -/
def processCBDataList (s : Maxwell3DState) :
    List Nat → Except EngineError Maxwell3DState
  | [] => .ok s
  | v :: vs =>
    match processCBData s v with
    | .error e => .error e
    | .ok s1 => processCBDataList s1 vs

/-- Maxwell3D::ProcessQueryGet: writes the query sequence number to the
translated query address in Write mode, fails on any other mode. -/
def processQueryGet (s : Maxwell3DState) : Except EngineError Maxwell3DState :=
  let address := s.translate (queryAddress s)
  if queryMode s = QueryModeWrite then
    .ok {s with mem := updFn s.mem address (s.regs QUERY_SEQUENCE % 2 ^ 32)}
  else .error .queryModeUnimplemented

/-- Maxwell3D::DrawArrays: emits the debug batch events and the rasterizer
AccelerateDrawBatch(false) call; no engine state changes. -/
def drawArrays (s : Maxwell3DState) : Maxwell3DState × List EngineEvent :=
  (s, [.incomingBatch, .finishedBatch, .drawBatch false])

/-- Maxwell3D::BindTextureInfoBuffer: copies the stage's texture-info-buffer
address (shifted left by 8 as a 64-bit value) and size into the active
constant-buffer config registers. -/
def bindTextureInfoBuffer (s : Maxwell3DState) (parameters : List Nat) :
    Except EngineError Maxwell3DState :=
  let stage := parameters.headD 0
  let address := s.regs (TEX_INFO_ADDR_BASE + stage) <<< 8
  let size := s.regs (TEX_INFO_SIZE_BASE + stage)
  .ok {s with regs :=
    (updFn (updFn (updFn s.regs CB_SIZE size)
      CB_ADDRESS_HIGH ((address >>> 32) % 2 ^ 32))
      CB_ADDRESS_LOW (address % 2 ^ 32))}

/-- Maxwell3D::SetShader: records the program slot, writes the shader config
start id, sets the active constant-buffer config to size 0x10000 and address
parameters[4] << 8 (computed in 32-bit arithmetic as in the source), marks the
stage's bind-config register valid with bind index 1 and performs the bind. -/
def setShader (s : Maxwell3DState) (parameters : List Nat) :
    Except EngineError Maxwell3DState :=
  let shader_program := parameters.getD 0 0
  let address := parameters.getD 2 0
  let shader_stage := parameters.getD 3 0
  let cb_address := (parameters.getD 4 0 <<< 8) % 2 ^ 32
  let s1 := {s with shaderPrograms := (updFn s.shaderPrograms shader_program
    { program := shader_program, stage := shader_stage, address := address })}
  let s2 := {s1 with regs :=
    (updFn s1.regs (SHADER_CONFIG_BASE + 0x10 * shader_program + 1) address)}
  let s3 := {s2 with regs :=
    (updFn (updFn (updFn s2.regs CB_SIZE 0x10000)
      CB_ADDRESS_HIGH ((cb_address >>> 32) % 2 ^ 32))
      CB_ADDRESS_LOW (cb_address % 2 ^ 32))}
  let bindReg := CB_BIND_BASE + 8 * shader_stage
  let s4 := {s3 with regs :=
    (updFn s3.regs bindReg (setBits (setBits (s3.regs bindReg) 0 1 1) 4 5 1))}
  .ok (processCBBind s4 shader_stage)

/-- Maxwell3D::BindStorageBuffer: sets the active constant-buffer config to
size 0x5F00 and the storage-buffer-info address, and the write cursor to
parameters[0] << 2 (32-bit arithmetic). -/
def bindStorageBuffer (s : Maxwell3DState) (parameters : List Nat) :
    Except EngineError Maxwell3DState :=
  let buffer_offset := (parameters.headD 0 <<< 2) % 2 ^ 32
  let address := ssboAddress s
  .ok {s with regs :=
    (updFn (updFn (updFn (updFn s.regs CB_SIZE 0x5F00)
      CB_ADDRESS_HIGH ((address >>> 32) % 2 ^ 32))
      CB_ADDRESS_LOW (address % 2 ^ 32))
      CB_POS buffer_offset)}

/-- Maxwell3D::method_handlers: the static table of named macro handlers. -/
def method_handlers : List (Nat × MethodInfo) :=
  [ (0xE1A, { methodName := "BindTextureInfoBuffer", arguments := 1,
              handler := bindTextureInfoBuffer }),
    (0xE24, { methodName := "SetShader", arguments := 5,
              handler := setShader }),
    (0xE2A, { methodName := "BindStorageBuffer", arguments := 1,
              handler := bindStorageBuffer }) ]

/-- Maxwell3D::CallMacroMethod over a handler table: the uploaded-code check,
the handler lookup, the arity check, the handler invocation and the
unconditional clearing of the pending call state, in source order. -/
def callMacroMethod (tbl : List (Nat × MethodInfo)) (s : Maxwell3DState)
    (method : Nat) (parameters : List Nat) :
    Except EngineError (Maxwell3DState × List EngineEvent) :=
  if (s.uploaded_macros.lookup method).isNone then .error .macroNotUploaded
  else
    match tbl.lookup method with
    | none => .error .macroUnimplemented
    | some info =>
      if info.arguments = parameters.length then
        match info.handler s parameters with
        | .error e => .error e
        | .ok s1 =>
          .ok ({s1 with executing_macro_id := 0, macro_params := []},
               [.handlerInvoked info.methodName parameters])
      else .error .macroArityMismatch

/-- Side-effect table of Maxwell3D::WriteReg (the switch over the register
index, applied after the raw store). -/
def applySideEffect (s : Maxwell3DState) (method value : Nat) :
    Except EngineError (Maxwell3DState × List EngineEvent) :=
  if method = CODE_ADDRESS_HIGH ∨ method = CODE_ADDRESS_LOW then
    if codeAddress s = 0 then .ok (s, []) else .error .codeAddressNonzero
  else if CB_DATA_BASE ≤ method ∧ method < CB_DATA_BASE + 16 then
    match processCBData s value with
    | .error e => .error e
    | .ok s1 => .ok (s1, [])
  else if method = CB_BIND_BASE then .ok (processCBBind s 0, [])
  else if method = CB_BIND_BASE + 8 then .ok (processCBBind s 1, [])
  else if method = CB_BIND_BASE + 16 then .ok (processCBBind s 2, [])
  else if method = CB_BIND_BASE + 24 then .ok (processCBBind s 3, [])
  else if method = CB_BIND_BASE + 32 then .ok (processCBBind s 4, [])
  else if method = DRAW_VERTEX_END_GL then .ok (drawArrays s)
  else if method = QUERY_GET then
    match processQueryGet s with
    | .error e => .error e
    | .ok s1 => .ok (s1, [])
  else .ok (s, [])

/-- Maxwell3D::WriteReg over a handler table: the register-count check, the
pending-macro argument check, the macro trigger sub-range handling and the
ordinary path (raw store, side-effect table, debug trace events). -/
def writeReg (tbl : List (Nat × MethodInfo)) (s : Maxwell3DState)
    (method value remaining_params : Nat) :
    Except EngineError (Maxwell3DState × List EngineEvent) :=
  if NUM_REGS ≤ method then .error .invalidRegister
  else if s.executing_macro_id ≠ 0 ∧ method ≠ s.executing_macro_id + 1 then
    .error .macroArgViolation
  else if MacroRegistersStart ≤ method then
    if s.executing_macro_id = 0 ∧ method % 2 ≠ 0 then .error .macroStartOnOddReg
    else
      let s1 := if s.executing_macro_id = 0
        then {s with executing_macro_id := method} else s
      let s2 := {s1 with macro_params := s1.macro_params ++ [value % 2 ^ 32]}
      if remaining_params = 0 then
        callMacroMethod tbl s2 s2.executing_macro_id s2.macro_params
      else .ok (s2, [])
  else
    let s1 := {s with regs := updFn s.regs method (value % 2 ^ 32)}
    match applySideEffect s1 method (value % 2 ^ 32) with
    | .error e => .error e
    | .ok (s2, evs) => .ok (s2, .commandLoaded :: (evs ++ [.commandProcessed]))

/-- Modelled from the spec: TIC descriptor field extraction (texture.h is not
under src/); the fields checked by GetTICEntry are read from the fixed-layout
0x20-byte record starting at the given guest virtual address. -/
def readTICEntry (s : Maxwell3DState) (va : Nat) : TICEntry :=
  let w0 := read32 s va
  let w2 := read32 s (va + 8)
  let w4 := read32 s (va + 16)
  { r_type := getBits w0 7 3, g_type := getBits w0 10 3,
    b_type := getBits w0 13 3, a_type := getBits w0 16 3,
    header_version := getBits w2 21 3, texture_type := getBits w4 23 4 }

/-- Modelled from the spec: enumeration values of the block-linear header
version and the 2D texture type from the missing texture header. -/
def TICHeaderVersionBlockLinear : Nat := 3

def TextureTypeTexture2D : Nat := 2

/-- The size in bytes of a TIC or TSC descriptor record. -/
def DescriptorSize : Nat := 0x20

/-- Maxwell3D::GetTICEntry: resolves a texture descriptor and enforces the
block-linear / 2D / uniform-component-type constraints. -/
def getTICEntry (s : Maxwell3DState) (tic_index : Nat) :
    Except EngineError TICEntry :=
  let e := readTICEntry s
    (s.translate ((ticAddress s + tic_index * DescriptorSize) % 2 ^ 64))
  if e.header_version ≠ TICHeaderVersionBlockLinear then
    .error .unsupportedTextureFormat
  else if e.texture_type ≠ TextureTypeTexture2D then
    .error .unsupportedTextureFormat
  else if e.r_type = e.g_type ∧ e.r_type = e.b_type ∧ e.r_type = e.a_type then
    .ok e
  else .error .unsupportedTextureFormat

/-- Maxwell3D::GetTSCEntry: resolves a sampler descriptor (no checks). -/
def getTSCEntry (s : Maxwell3DState) (tsc_index : Nat) : TSCEntry :=
  ⟨read32 s (s.translate ((tscAddress s + tsc_index * DescriptorSize) % 2 ^ 64))⟩

/-- Modelled from the spec: the TextureHandle bit split (texture-id component
in the low bits, sampler-id component above it), texture.h being absent. -/
def handleTicId (raw : Nat) : Nat := getBits raw 0 20

def handleTscId (raw : Nat) : Nat := getBits raw 20 12

/-- Fixed header offset at which texture handles start in the bound buffer. -/
def TextureInfoOffset : Nat := 0x20

/-- Number of iterations of the GetStageTextures handle scan loop: fixed-size
handle entries from address + 0x20 up to address + size (64-bit compare). -/
def handleScanCount (address size : Nat) : Nat :=
  let start := (address + TextureInfoOffset) % 2 ^ 64
  let stop := (address + size) % 2 ^ 64
  if start < stop then (stop - start + 3) / 4 else 0

/-- The raw texture handle word at scan position i. -/
def handleRawAt (s : Maxwell3DState) (address i : Nat) : Nat :=
  read32 s (s.translate ((address + TextureInfoOffset + 4 * i) % 2 ^ 64))

/-- The loop body of Maxwell3D::GetStageTextures at one scan position:
resolves the TIC entry for a nonzero texture id (marking the entry enabled)
and the TSC entry for a nonzero sampler id; index is the zero-based scan
position. -/
def resolveOne (s : Maxwell3DState) (address i : Nat) :
    Except EngineError FullTextureInfo :=
  if handleTicId (handleRawAt s address i) ≠ 0 then
    match getTICEntry s (handleTicId (handleRawAt s address i)) with
    | .error e => .error e
    | .ok t =>
      if handleTscId (handleRawAt s address i) ≠ 0 then
        .ok { index := i, enabled := true, tic := t,
              tsc := getTSCEntry s (handleTscId (handleRawAt s address i)) }
      else .ok { index := i, enabled := true, tic := t, tsc := default }
  else
    if handleTscId (handleRawAt s address i) ≠ 0 then
      .ok { index := i, enabled := false, tic := default,
            tsc := getTSCEntry s (handleTscId (handleRawAt s address i)) }
    else .ok { index := i, enabled := false, tic := default, tsc := default }

/-- The GetStageTextures scan over the handle positions, keeping only enabled
entries. -/
def resolveHandles (s : Maxwell3DState) (address : Nat) :
    List Nat → Except EngineError (List FullTextureInfo)
  | [] => .ok []
  | i :: rest =>
    match resolveOne s address i with
    | .error e => .error e
    | .ok info =>
      match resolveHandles s address rest with
      | .error e => .error e
      | .ok tail => .ok (if info.enabled then info :: tail else tail)

/-- Maxwell3D::GetStageTextures: checks that the stage's texture-info bind
slot (selected by the tex_cb_index register) is enabled with nonzero address,
then scans the handle entries of the bound buffer. -/
def getStageTextures (s : Maxwell3DState) (stage : Nat) :
    Except EngineError (List FullTextureInfo) :=
  let buf := s.shaderStages stage (s.regs TEX_CB_INDEX)
  if buf.enabled ∧ buf.address ≠ 0 then
    resolveHandles s buf.address
      (List.range (handleScanCount buf.address buf.size))
  else .error .textureBufferNotBound

/-- The all-zero engine state with identity address translation. -/
def initState : Maxwell3DState :=
  { regs := fun _ => 0,
    shaderStages := fun _ _ => default,
    shaderPrograms := fun _ => default,
    executing_macro_id := 0,
    macro_params := [],
    uploaded_macros := [],
    mem := fun _ => 0,
    translate := fun a => a }

/-- Register ids handled by the default (no-op) case of the side-effect
table. -/
def sideEffectFree (method : Nat) : Prop :=
  method ≠ CODE_ADDRESS_HIGH ∧ method ≠ CODE_ADDRESS_LOW ∧
  ¬(CB_DATA_BASE ≤ method ∧ method < CB_DATA_BASE + 16) ∧
  method ≠ CB_BIND_BASE ∧ method ≠ CB_BIND_BASE + 8 ∧
  method ≠ CB_BIND_BASE + 16 ∧ method ≠ CB_BIND_BASE + 24 ∧
  method ≠ CB_BIND_BASE + 32 ∧
  method ≠ DRAW_VERTEX_END_GL ∧ method ≠ QUERY_GET

instance (method : Nat) : Decidable (sideEffectFree method) := by
  unfold sideEffectFree; infer_instance

/-- The three descriptor constraints of GetTICEntry. -/
def ticOk (e : TICEntry) : Prop :=
  e.header_version = TICHeaderVersionBlockLinear ∧
  e.texture_type = TextureTypeTexture2D ∧
  e.r_type = e.g_type ∧ e.r_type = e.b_type ∧ e.r_type = e.a_type

instance (e : TICEntry) : Decidable (ticOk e) := by
  unfold ticOk; infer_instance

/-- A handler-table entry of arity 3 for exercising the macro dispatch
protocol over an arbitrary table (the static table has no 3-argument
handler: its arities are 1, 5 and 1). -/
def tinfo0 : MethodInfo :=
  { methodName := "TestMacro", arguments := 3, handler := fun s _ => .ok s }

def tbl0 : List (Nat × MethodInfo) := [(0xE00, tinfo0)]

/-- Idle state with macro code uploaded for entry 0 (key 0xE00). -/
def c1state : Maxwell3DState := submitMacroCode initState 0 []

/-- State with an active constant buffer at address 0x1000 of size 4. -/
def c3state : Maxwell3DState :=
  {initState with regs := (updFn (updFn initState.regs CB_ADDRESS_LOW 0x1000) CB_SIZE 4)}

/-- The state after one successful streamed write into c3state. -/
def c3state1 : Maxwell3DState :=
  {c3state with mem := updFn c3state.mem 0x1000 7, regs := updFn c3state.regs CB_POS 4}

/-- State holding a query address and sequence number, in Write mode. -/
def c7wstate : Maxwell3DState :=
  {initState with regs := (updFn (updFn initState.regs QUERY_ADDRESS_LOW 0x500) QUERY_SEQUENCE 42)}

/-- The same query state with an unimplemented query mode. -/
def c7bstate : Maxwell3DState :=
  {c7wstate with regs := updFn c7wstate.regs QUERY_GET 1}

/-- State whose guest memory holds a valid (block-linear, 2D) descriptor at
the TIC table base. -/
def c8state : Maxwell3DState :=
  {initState with mem := (updFn (updFn initState.mem 8 (3 <<< 21)) 16 (2 <<< 23))}

/-- State with texture-info-buffer address register 1 and size register 5 for
stage 0. -/
def c9state : Maxwell3DState :=
  {initState with regs :=
    (updFn (updFn initState.regs TEX_INFO_ADDR_BASE 1) TEX_INFO_SIZE_BASE 5)}

/-- Idle state with code uploaded for the BindTextureInfoBuffer macro (entry
0xD, key 0xE1A) and a nonzero stage-0 texture-info size register. -/
def c10state : Maxwell3DState :=
  submitMacroCode {initState with regs := (updFn initState.regs TEX_INFO_SIZE_BASE 7)} 0xD []

/-- State with code uploaded under keys 0xE02 (entry 1, no handler) and 0xE1A
(entry 0xD, the BindTextureInfoBuffer handler). -/
def c5state : Maxwell3DState := submitMacroCode (submitMacroCode initState 1 [9]) 0xD [8]

/-- State with the stage-4 texture-info slot bound at address 0x2000, size
0x28 (two handles at 0x2020 and 0x2024: texture id 5 and texture id 0), and a
valid descriptor at TIC index 5 of the table at 0x3000. -/
def c4state : Maxwell3DState :=
  {initState with
    shaderStages := (updFn2 initState.shaderStages 4 0
      { enabled := true, index := 0, address := 0x2000, size := 0x28 }),
    regs := (updFn initState.regs TIC_ADDRESS_LOW 0x3000),
    mem := (updFn (updFn (updFn (updFn initState.mem 0x2020 5) 0x2024 0)
      (0x3000 + 5 * 0x20 + 8) (3 <<< 21)) (0x3000 + 5 * 0x20 + 16) (2 <<< 23))}

/-! ### Helper lemmas -/

@[simp] theorem updFn_self {α : Type} (f : Nat → α) (i : Nat) (v : α) :
    updFn f i v i = v := by
  simp [updFn]

theorem updFn_ne {α : Type} (f : Nat → α) {i j : Nat} (v : α) (h : j ≠ i) :
    updFn f i v j = f j := by
  simp [updFn, h]

theorem lor_two_pow_add (a b n : Nat) (h : b < 2 ^ n) :
    (a <<< n) ||| b = a * 2 ^ n + b := by
  apply Nat.eq_of_testBit_eq
  intro j
  rw [Nat.testBit_lor, Nat.testBit_shiftLeft, Nat.mul_comm,
    Nat.testBit_mul_pow_two_add a h j]
  by_cases hj : j < n
  · simp [hj, Nat.not_le_of_lt hj]
  · have hbj : b.testBit j = false :=
      Nat.testBit_lt_two_pow (lt_of_lt_of_le h
        (Nat.pow_le_pow_right (by norm_num) (Nat.le_of_not_lt hj)))
    simp [hj, Nat.le_of_not_lt hj, hbj]

theorem highLow_roundtrip (A : Nat) (h : A < 2 ^ 64) :
    ((((A >>> 32) % 2 ^ 32) <<< 32) ||| (A % 2 ^ 32)) = A := by
  have h1 : A >>> 32 = A / 2 ^ 32 := Nat.shiftRight_eq_div_pow A 32
  have h2 : A / 2 ^ 32 < 2 ^ 32 := by
    apply Nat.div_lt_of_lt_mul
    calc A < 2 ^ 64 := h
    _ = 2 ^ 32 * 2 ^ 32 := by norm_num
  rw [h1, Nat.mod_eq_of_lt h2, lor_two_pow_add _ _ _ (Nat.mod_lt _ (by norm_num))]
  have := Nat.div_add_mod A (2 ^ 32)
  omega

theorem processCBData_ok_shape (s : Maxwell3DState) (v : Nat)
    (s' : Maxwell3DState) (h : processCBData s v = .ok s') :
    constBufAddr s ≠ 0 ∧ s.regs CB_POS + 4 ≤ s.regs CB_SIZE ∧
    s' = {s with
      mem := updFn s.mem (s.translate ((constBufAddr s + s.regs CB_POS) % 2 ^ 64)) (v % 2 ^ 32),
      regs := updFn s.regs CB_POS ((s.regs CB_POS + 4) % 2 ^ 32)} := by
  by_cases h1 : constBufAddr s = 0
  · have he : processCBData s v = .error .constBufferNotBound := by
      simp only [processCBData]
      rw [if_pos h1]
    rw [he] at h
    exact Except.noConfusion h
  · by_cases h2 : s.regs CB_POS + 4 ≤ s.regs CB_SIZE
    · have he : processCBData s v = .ok {s with
        mem := updFn s.mem (s.translate ((constBufAddr s + s.regs CB_POS) % 2 ^ 64)) (v % 2 ^ 32),
        regs := updFn s.regs CB_POS ((s.regs CB_POS + 4) % 2 ^ 32)} := by
        simp only [processCBData]
        rw [if_neg h1, if_pos h2]
      rw [he] at h
      injection h with h
      exact ⟨h1, h2, h.symm⟩
    · have he : processCBData s v = .error .constBufferOverflow := by
        simp only [processCBData]
        rw [if_neg h1, if_neg h2]
      rw [he] at h
      exact Except.noConfusion h

theorem processCBData_pos_size (s : Maxwell3DState) (v : Nat)
    (s' : Maxwell3DState) (hsz : s.regs CB_SIZE < 2 ^ 32)
    (h : processCBData s v = .ok s') :
    s'.regs CB_POS = s.regs CB_POS + 4 ∧ s'.regs CB_SIZE = s.regs CB_SIZE := by
  obtain ⟨h1, h2, h3⟩ := processCBData_ok_shape s v s' h
  subst h3
  constructor
  · show updFn s.regs CB_POS ((s.regs CB_POS + 4) % 2 ^ 32) CB_POS = _
    rw [updFn_self, Nat.mod_eq_of_lt (by omega)]
  · show updFn s.regs CB_POS ((s.regs CB_POS + 4) % 2 ^ 32) CB_SIZE = _
    exact updFn_ne _ _ (by decide)

theorem processCBDataList_pos (vs : List Nat) : ∀ s s' : Maxwell3DState,
    s.regs CB_SIZE < 2 ^ 32 → processCBDataList s vs = .ok s' →
    s'.regs CB_POS = s.regs CB_POS + 4 * vs.length := by
  induction vs with
  | nil =>
    intro s s' _ h
    injection h with h
    subst h
    simp
  | cons v vs ih =>
    intro s s' hsz h
    unfold processCBDataList at h
    cases hp : processCBData s v with
    | error e => rw [hp] at h; exact Except.noConfusion h
    | ok s1 =>
      rw [hp] at h
      obtain ⟨hpos, hsize⟩ := processCBData_pos_size s v s1 hsz hp
      have h2 := ih s1 s' (by rw [hsize]; exact hsz) h
      rw [h2, hpos]
      simp [List.length_cons]
      ring

/-! ### Claim theorems -/

/-- C3: the streamed constant-buffer write fails with ConstBufferNotBound on a
zero buffer address and with ConstBufferOverflow when the cursor would pass
the buffer size; otherwise it writes the word to guest memory at the
translated address buffer + cursor and advances the cursor by exactly 4, so
that N successful sequential writes advance the cursor by 4N. -/
theorem c3_streamed_write_contract :
    (∀ (s : Maxwell3DState) (v : Nat), constBufAddr s = 0 →
      processCBData s v = .error .constBufferNotBound) ∧
    (∀ (s : Maxwell3DState) (v : Nat), constBufAddr s ≠ 0 →
      s.regs CB_SIZE < s.regs CB_POS + 4 →
      processCBData s v = .error .constBufferOverflow) ∧
    (∀ (s : Maxwell3DState) (v : Nat), constBufAddr s ≠ 0 →
      s.regs CB_POS + 4 ≤ s.regs CB_SIZE → s.regs CB_SIZE < 2 ^ 32 →
      v < 2 ^ 32 →
      processCBData s v = .ok {s with
        mem := updFn s.mem (s.translate ((constBufAddr s + s.regs CB_POS) % 2 ^ 64)) v,
        regs := updFn s.regs CB_POS (s.regs CB_POS + 4)}) ∧
    (∀ (vs : List Nat) (s s' : Maxwell3DState), s.regs CB_SIZE < 2 ^ 32 →
      processCBDataList s vs = .ok s' →
      s'.regs CB_POS = s.regs CB_POS + 4 * vs.length) := by
  refine ⟨?_, ?_, ?_, ?_⟩
  · intro s v h
    simp only [processCBData]
    rw [if_pos h]
  · intro s v h1 h2
    simp only [processCBData]
    rw [if_neg h1, if_neg (by omega)]
  · intro s v h1 h2 hsz hv
    simp only [processCBData]
    rw [if_neg h1, if_pos h2, Nat.mod_eq_of_lt hv,
      Nat.mod_eq_of_lt (show s.regs CB_POS + 4 < 2 ^ 32 by omega)]
  · exact fun vs s s' hsz h => processCBDataList_pos vs s s' hsz h

/-- C3 witness: with a buffer of size 4 bound at address 0x1000, the first
write succeeds (cursor 0 to 4), the second fails with ConstBufferOverflow,
and the unbound all-zero state fails with ConstBufferNotBound. -/
theorem c3_streamed_write_contract_witness :
    processCBData initState 7 = .error .constBufferNotBound ∧
    processCBData c3state 7 = .ok c3state1 ∧
    processCBData c3state1 9 = .error .constBufferOverflow ∧
    c3state1.regs CB_POS = c3state.regs CB_POS + 4 * ([7] : List Nat).length := by
  refine ⟨?_, ?_, ?_, ?_⟩
  · exact c3_streamed_write_contract.1 initState 7 rfl
  · exact c3_streamed_write_contract.2.2.1 c3state 7 (by decide) (by decide)
      (by decide) (by decide)
  · exact c3_streamed_write_contract.2.1 c3state1 9 (by decide) (by decide)
  · exact c3_streamed_write_contract.2.2.2 [7] c3state c3state1 (by decide) rfl

/-- C7: the query processor computes the guest address from the query
address registers; in Write mode it writes the 32-bit query sequence number
there, and in any other mode it fails with UnimplementedQueryMode without
writing to guest memory. -/
theorem c7_query_processor (s : Maxwell3DState) :
    (queryMode s = QueryModeWrite →
      processQueryGet s = .ok {s with mem := (updFn s.mem
        (s.translate (queryAddress s)) (s.regs QUERY_SEQUENCE % 2 ^ 32))}) ∧
    (queryMode s ≠ QueryModeWrite →
      processQueryGet s = .error .queryModeUnimplemented) := by
  constructor
  · intro h
    unfold processQueryGet
    rw [if_pos h]
  · intro h
    unfold processQueryGet
    rw [if_neg h]

/-- C7 witness: a Write-mode query writes sequence number 42 to address
0x500, and mode 1 fails with UnimplementedQueryMode. -/
theorem c7_query_processor_witness :
    processQueryGet c7wstate = .ok {c7wstate with mem := updFn c7wstate.mem 0x500 42} ∧
    processQueryGet c7bstate = .error .queryModeUnimplemented := by
  constructor
  · exact (c7_query_processor c7wstate).1 (by decide)
  · exact (c7_query_processor c7bstate).2 (by decide)

/-- C8: every texture descriptor resolved by GetTICEntry has block-linear
layout, 2D texture type and identical data types across the four components,
and a descriptor violating any of these fails the resolution with
UnsupportedTextureFormat. -/
theorem c8_tic_descriptor_constraints (s : Maxwell3DState) (idx : Nat) :
    (∀ e, getTICEntry s idx = .ok e → ticOk e) ∧
    (¬ ticOk (readTICEntry s (s.translate
        ((ticAddress s + idx * DescriptorSize) % 2 ^ 64))) →
      getTICEntry s idx = .error .unsupportedTextureFormat) := by
  have hdef : ∀ e : TICEntry,
      (if e.header_version ≠ TICHeaderVersionBlockLinear then
        (.error .unsupportedTextureFormat : Except EngineError TICEntry)
      else if e.texture_type ≠ TextureTypeTexture2D then
        .error .unsupportedTextureFormat
      else if e.r_type = e.g_type ∧ e.r_type = e.b_type ∧ e.r_type = e.a_type then
        .ok e
      else .error .unsupportedTextureFormat) =
      (if ticOk e then .ok e else .error .unsupportedTextureFormat) := by
    intro e
    by_cases h1 : e.header_version = TICHeaderVersionBlockLinear
    · by_cases h2 : e.texture_type = TextureTypeTexture2D
      · by_cases h3 : e.r_type = e.g_type ∧ e.r_type = e.b_type ∧ e.r_type = e.a_type
        · rw [if_neg (by simp [h1]), if_neg (by simp [h2]), if_pos h3,
            if_pos ⟨h1, h2, h3.1, h3.2.1, h3.2.2⟩]
        · rw [if_neg (by simp [h1]), if_neg (by simp [h2]), if_neg h3,
            if_neg (fun hc => h3 ⟨hc.2.2.1, hc.2.2.2.1, hc.2.2.2.2⟩)]
      · rw [if_neg (by simp [h1]), if_pos (by simp [h2]),
          if_neg (fun hc => h2 hc.2.1)]
    · rw [if_pos (by simp [h1]), if_neg (fun hc => h1 hc.1)]
  have hg : getTICEntry s idx =
      (if ticOk (readTICEntry s (s.translate
        ((ticAddress s + idx * DescriptorSize) % 2 ^ 64))) then
        .ok (readTICEntry s (s.translate
          ((ticAddress s + idx * DescriptorSize) % 2 ^ 64)))
      else .error .unsupportedTextureFormat) := by
    simp only [getTICEntry]
    exact hdef _
  constructor
  · intro e he
    rw [hg] at he
    by_cases h : ticOk (readTICEntry s (s.translate
        ((ticAddress s + idx * DescriptorSize) % 2 ^ 64)))
    · rw [if_pos h] at he
      injection he with he
      rw [← he]
      exact h
    · rw [if_neg h] at he
      exact Except.noConfusion he
  · intro hno
    rw [hg, if_neg hno]

/-- C8 witness: the all-zero descriptor of the initial state is rejected with
UnsupportedTextureFormat, while a block-linear 2D descriptor resolves. -/
theorem c8_tic_descriptor_constraints_witness :
    ticOk (readTICEntry c8state 0) ∧
    getTICEntry initState 0 = .error .unsupportedTextureFormat := by
  constructor
  · exact (c8_tic_descriptor_constraints c8state 0).1 (readTICEntry c8state 0) rfl
  · exact (c8_tic_descriptor_constraints initState 0).2 (by decide)

/-- C9 counterexample: with the stage-0 texture-info address register holding
1, BindTextureInfoBuffer([0]) sets the active constant-buffer address to 256,
not to the register value 1 (the handler shifts the register left by 8). -/
theorem c9_counterexample :
    c9state.regs TEX_INFO_ADDR_BASE = 1 ∧
    Except.map constBufAddr (bindTextureInfoBuffer c9state [0]) = .ok 256 ∧
    (256 : Nat) ≠ 1 := by
  exact ⟨rfl, rfl, by decide⟩

/-- C9 (amended): after BindTextureInfoBuffer([stage]) for a valid stage, the
active constant-buffer config holds the stage's texture-info-buffer size
register and its address register shifted left by 8. -/
theorem c9_bind_texture_info_buffer (s : Maxwell3DState) (stage : Nat)
    (hst : stage < 5) (hreg : s.regs (TEX_INFO_ADDR_BASE + stage) < 2 ^ 32)
    (s' : Maxwell3DState)
    (h : bindTextureInfoBuffer s [stage] = .ok s') :
    s'.regs CB_SIZE = s.regs (TEX_INFO_SIZE_BASE + stage) ∧
    constBufAddr s' = s.regs (TEX_INFO_ADDR_BASE + stage) <<< 8 := by
  unfold bindTextureInfoBuffer at h
  injection h with h
  subst h
  constructor
  · rfl
  · show ((((s.regs (TEX_INFO_ADDR_BASE + stage) <<< 8) >>> 32) % 2 ^ 32) <<< 32) |||
      ((s.regs (TEX_INFO_ADDR_BASE + stage) <<< 8) % 2 ^ 32) =
      s.regs (TEX_INFO_ADDR_BASE + stage) <<< 8
    apply highLow_roundtrip
    calc s.regs (TEX_INFO_ADDR_BASE + stage) <<< 8
        = s.regs (TEX_INFO_ADDR_BASE + stage) * 2 ^ 8 := Nat.shiftLeft_eq _ 8
    _ < 2 ^ 32 * 2 ^ 8 := by
      have : (0 : Nat) < 2 ^ 8 := by norm_num
      exact (Nat.mul_lt_mul_right this).mpr hreg
    _ < 2 ^ 64 := by norm_num

/-- C5: CallMacroMethod applies its checks in order: code uploaded (else
UnknownMacro), handler present in the static table (else UnimplementedMacro),
exact arity (else a fatal contract violation); only when all three pass is
the handler invoked, after which the pending call state is cleared.
Microcode uploads are keyed by entry * 2 + MacroRegistersStart. -/
theorem c5_call_macro_checks :
    (∀ (s : Maxwell3DState) (entry : Nat) (code : List Nat),
      ((submitMacroCode s entry code).uploaded_macros.lookup
        ((entry * 2 + MacroRegistersStart) % 2 ^ 32)) = some code) ∧
    (∀ (s : Maxwell3DState) (m : Nat) (p : List Nat),
      s.uploaded_macros.lookup m = none →
      callMacroMethod method_handlers s m p = .error .macroNotUploaded) ∧
    (∀ (s : Maxwell3DState) (m : Nat) (p c : List Nat),
      s.uploaded_macros.lookup m = some c →
      method_handlers.lookup m = none →
      callMacroMethod method_handlers s m p = .error .macroUnimplemented) ∧
    (∀ (s : Maxwell3DState) (m : Nat) (p c : List Nat) (info : MethodInfo),
      s.uploaded_macros.lookup m = some c →
      method_handlers.lookup m = some info →
      info.arguments ≠ p.length →
      callMacroMethod method_handlers s m p = .error .macroArityMismatch) ∧
    (∀ (s : Maxwell3DState) (m : Nat) (p c : List Nat) (info : MethodInfo)
      (t : Maxwell3DState),
      s.uploaded_macros.lookup m = some c →
      method_handlers.lookup m = some info →
      info.arguments = p.length →
      info.handler s p = .ok t →
      callMacroMethod method_handlers s m p =
        .ok ({t with executing_macro_id := 0, macro_params := []},
             [.handlerInvoked info.methodName p])) := by
  refine ⟨?_, ?_, ?_, ?_, ?_⟩
  · intro s entry code
    simp [submitMacroCode, List.lookup]
  · intro s m p h
    unfold callMacroMethod
    rw [if_pos (by rw [h]; rfl)]
  · intro s m p c h1 h2
    unfold callMacroMethod
    rw [if_neg (by rw [h1]; simp), h2]
  · intro s m p c info h1 h2 h3
    unfold callMacroMethod
    rw [if_neg (by rw [h1]; simp), h2]
    exact if_neg h3
  · intro s m p c info t h1 h2 h3 h4
    unfold callMacroMethod
    rw [if_neg (by rw [h1]; simp), h2]
    show (if info.arguments = p.length then
        match info.handler s p with
        | Except.error e => Except.error e
        | Except.ok s1 =>
          Except.ok ({s1 with executing_macro_id := 0, macro_params := []},
            [EngineEvent.handlerInvoked info.methodName p])
      else Except.error EngineError.macroArityMismatch) = _
    rw [if_pos h3, h4]

/-- C5 witness: with uploads under keys 0xE02 and 0xE1A, the four outcomes
are exercised on the static handler table: no upload at 0xE24, no handler at
0xE02, arity mismatch at 0xE1A with zero parameters, and a full dispatch of
BindTextureInfoBuffer with one parameter, leaving the pending state clear. -/
theorem c5_call_macro_checks_witness :
    callMacroMethod method_handlers initState 0xE24 [] = .error .macroNotUploaded ∧
    callMacroMethod method_handlers c5state 0xE02 [] = .error .macroUnimplemented ∧
    callMacroMethod method_handlers c5state 0xE1A [] = .error .macroArityMismatch ∧
    Except.map (fun r => (r.1.executing_macro_id, r.1.macro_params, r.2))
      (callMacroMethod method_handlers c5state 0xE1A [0]) =
      .ok (0, [], [.handlerInvoked "BindTextureInfoBuffer" [0]]) := by
  refine ⟨?_, ?_, ?_, ?_⟩
  · exact c5_call_macro_checks.2.1 initState 0xE24 [] rfl
  · exact c5_call_macro_checks.2.2.1 c5state 0xE02 [] [9] rfl rfl
  · exact c5_call_macro_checks.2.2.2.1 c5state 0xE1A [] [8] _ rfl rfl (by decide)
  · obtain ⟨t, ht⟩ : ∃ t, bindTextureInfoBuffer c5state [0] = .ok t := ⟨_, rfl⟩
    rw [c5_call_macro_checks.2.2.2.2 c5state 0xE1A [0] [8] _ t rfl rfl rfl ht]
    rfl

/-- C2 evaluated at the failing input: SetShader([0, 0, 7, 4, 0x1000000])
records program slot 0 with program 0, stage 4, address 7, and binds slot 1
of stage 4 enabled with size 0x10000, but the bound constant-buffer address
is 0 rather than 0x1000000 << 8 = 0x100000000: the source computes
parameters[4] << 8 in 32-bit arithmetic before widening it to a 64-bit
address (the sibling handler BindTextureInfoBuffer casts to 64 bits before
shifting). -/
theorem c2_set_shader_truncates_cb_address :
    Except.map (fun t => ((t.shaderPrograms 0).program, (t.shaderPrograms 0).stage,
      (t.shaderPrograms 0).address, (t.shaderStages 4 1).enabled,
      (t.shaderStages 4 1).size, (t.shaderStages 4 1).address))
      (setShader initState [0, 0, 7, 4, 0x1000000]) =
      .ok (0, 4, 7, true, 0x10000, 0) ∧
    (0x1000000 : Nat) <<< 8 = 0x100000000 := by
  exact ⟨rfl, by decide⟩

/-- WriteReg on an ordinary register (below the macro range) with all checks
passing: raw store followed by the side-effect table. -/
theorem writeReg_ordinary (tbl : List (Nat × MethodInfo)) (s : Maxwell3DState)
    (m v r : Nat) (h1 : m < NUM_REGS)
    (h2 : ¬(s.executing_macro_id ≠ 0 ∧ m ≠ s.executing_macro_id + 1))
    (h3 : m < MacroRegistersStart) :
    writeReg tbl s m v r =
      match applySideEffect {s with regs := updFn s.regs m (v % 2 ^ 32)} m (v % 2 ^ 32) with
      | .error e => .error e
      | .ok (s2, evs) => .ok (s2, .commandLoaded :: (evs ++ [.commandProcessed])) := by
  unfold writeReg
  rw [if_neg (by omega), if_neg h2, if_neg (by omega)]

/-- WriteReg on a macro-range register with all checks passing: pending state
update and, on batch end, the dispatch. -/
theorem writeReg_macro_branch (tbl : List (Nat × MethodInfo)) (s : Maxwell3DState)
    (m v r : Nat) (h1 : m < NUM_REGS)
    (h2 : ¬(s.executing_macro_id ≠ 0 ∧ m ≠ s.executing_macro_id + 1))
    (h3 : MacroRegistersStart ≤ m)
    (h4 : ¬(s.executing_macro_id = 0 ∧ m % 2 ≠ 0)) :
    writeReg tbl s m v r =
      (let s1 := if s.executing_macro_id = 0
        then {s with executing_macro_id := m} else s
       let s2 := {s1 with macro_params := s1.macro_params ++ [v % 2 ^ 32]}
       if r = 0 then callMacroMethod tbl s2 s2.executing_macro_id s2.macro_params
       else .ok (s2, [])) := by
  unfold writeReg
  rw [if_neg (by omega), if_neg h2, if_pos h3, if_neg h4]

/-- Side-effect table on a register with no entry: no effect, no events. -/
theorem applySideEffect_default (s : Maxwell3DState) (m v : Nat)
    (hfree : sideEffectFree m) : applySideEffect s m v = .ok (s, []) := by
  obtain ⟨f1, f2, f3, f4, f5, f6, f7, f8, f9, f10⟩ := hfree
  unfold applySideEffect
  rw [if_neg (by rintro (hc | hc) <;> [exact f1 hc; exact f2 hc]), if_neg f3,
    if_neg f4, if_neg f5, if_neg f6, if_neg f7, if_neg f8, if_neg f9, if_neg f10]

theorem processQueryGet_ok_regs (s s' : Maxwell3DState)
    (h : processQueryGet s = .ok s') : s'.regs = s.regs := by
  by_cases h1 : queryMode s = QueryModeWrite
  · have he : processQueryGet s = .ok {s with mem := (updFn s.mem
        (s.translate (queryAddress s)) (s.regs QUERY_SEQUENCE % 2 ^ 32))} := by
      simp only [processQueryGet]
      rw [if_pos h1]
    rw [he] at h
    injection h with h
    rw [← h]
  · have he : processQueryGet s = .error .queryModeUnimplemented := by
      simp only [processQueryGet]
      rw [if_neg h1]
    rw [he] at h
    exact Except.noConfusion h

/-- No entry of the side-effect table writes back to the register that
triggered it. -/
theorem applySideEffect_preserves_written (s : Maxwell3DState) (m v : Nat)
    (s2 : Maxwell3DState) (evs : List EngineEvent)
    (h : applySideEffect s m v = .ok (s2, evs)) : s2.regs m = s.regs m := by
  unfold applySideEffect at h
  split_ifs at h with h1 h1a h2 h3 h4 h5 h6 h7 h8 h9
  · injection h with h
    injection h with ha hb
    rw [← ha]
  · cases hp : processCBData s v with
    | error e => rw [hp] at h; exact Except.noConfusion h
    | ok s1 =>
      rw [hp] at h
      injection h with h
      injection h with ha hb
      obtain ⟨g1, g2, g3⟩ := processCBData_ok_shape s v s1 hp
      subst g3
      rw [← ha]
      show updFn s.regs CB_POS ((s.regs CB_POS + 4) % 2 ^ 32) m = s.regs m
      apply updFn_ne
      obtain ⟨hlo, hhi⟩ := h2
      simp only [CB_DATA_BASE] at hlo
      simp only [CB_POS]
      omega
  · injection h with h
    injection h with ha hb
    subst ha
    rfl
  · injection h with h
    injection h with ha hb
    subst ha
    rfl
  · injection h with h
    injection h with ha hb
    subst ha
    rfl
  · injection h with h
    injection h with ha hb
    subst ha
    rfl
  · injection h with h
    injection h with ha hb
    subst ha
    rfl
  · injection h with h
    injection h with ha hb
    subst ha
    rfl
  · cases hp : processQueryGet s with
    | error e => rw [hp] at h; exact Except.noConfusion h
    | ok s1 =>
      rw [hp] at h
      injection h with h
      injection h with ha hb
      rw [← ha, processQueryGet_ok_regs s s1 hp]
  · injection h with h
    injection h with ha hb
    subst ha
    rfl

/-- C6: a write to any register outside the macro range that completes stores
the written value, and no entry of the side-effect table overwrites it. -/
theorem c6_ordinary_write_readback (s : Maxwell3DState) (id v : Nat)
    (hid : id < MacroRegistersStart) (hv : v < 2 ^ 32)
    (s' : Maxwell3DState) (ev : List EngineEvent)
    (h : writeReg method_handlers s id v 0 = .ok (s', ev)) :
    s'.regs id = v := by
  by_cases h2 : s.executing_macro_id ≠ 0 ∧ id ≠ s.executing_macro_id + 1
  · unfold writeReg at h
    rw [if_neg (show ¬ NUM_REGS ≤ id by
      simp only [NUM_REGS]
      simp only [MacroRegistersStart] at hid
      omega), if_pos h2] at h
    exact Except.noConfusion h
  · rw [writeReg_ordinary method_handlers s id v 0 (by
      simp only [NUM_REGS]
      simp only [MacroRegistersStart] at hid
      omega) h2 hid] at h
    cases ha : applySideEffect {s with regs := updFn s.regs id (v % 2 ^ 32)} id (v % 2 ^ 32) with
    | error e => rw [ha] at h; exact Except.noConfusion h
    | ok p =>
      obtain ⟨s2, evs⟩ := p
      rw [ha] at h
      injection h with h
      injection h with ha2 hb
      rw [← ha2, applySideEffect_preserves_written _ id (v % 2 ^ 32) s2 evs ha]
      show updFn s.regs id (v % 2 ^ 32) id = v
      rw [updFn_self, Nat.mod_eq_of_lt hv]

/-- C6 witness: writing 5 to the side-effect-free register 0x100 of the
all-zero state stores 5 there. -/
theorem c6_ordinary_write_readback_witness :
    Except.map (fun p => p.1.regs 0x100) (writeReg method_handlers initState 0x100 5 0) =
      .ok 5 := by
  obtain ⟨s', ev, hw⟩ : ∃ s' ev, writeReg method_handlers initState 0x100 5 0 = .ok (s', ev) :=
    ⟨_, _, rfl⟩
  rw [hw]
  have := c6_ordinary_write_readback initState 0x100 5 (by decide) (by decide) s' ev hw
  rw [Except.map, this]

/-- C9 witness for the amended statement: with address register 1 and size
register 5 for stage 0, the bind leaves size 5 and address 256 in the active
config. -/
theorem c9_bind_texture_info_buffer_witness :
    (5 : Nat) < 2 ^ 32 ∧
    (bindTextureInfoBuffer c9state [0]).isOk = true := by
  constructor
  · decide
  · have h : ∃ s', bindTextureInfoBuffer c9state [0] = .ok s' := ⟨_, rfl⟩
    obtain ⟨s', hs⟩ := h
    have := c9_bind_texture_info_buffer c9state 0 (by decide) (by decide) s' hs
    rw [hs]
    rfl

/-- A successful macro dispatch leaves the pending state cleared and reports
exactly one handler invocation. -/
theorem callMacroMethod_ok_shape (tbl : List (Nat × MethodInfo))
    (s : Maxwell3DState) (m : Nat) (p : List Nat) (t : Maxwell3DState)
    (ev : List EngineEvent) (h : callMacroMethod tbl s m p = .ok (t, ev)) :
    t.executing_macro_id = 0 ∧ t.macro_params = [] ∧
    ∃ info, tbl.lookup m = some info ∧ ev = [.handlerInvoked info.methodName p] := by
  unfold callMacroMethod at h
  split_ifs at h with h1
  cases hl : tbl.lookup m with
  | none => rw [hl] at h; exact Except.noConfusion h
  | some info =>
    rw [hl] at h
    replace h : (if info.arguments = p.length then
        match info.handler s p with
        | Except.error e => Except.error e
        | Except.ok s1 =>
          Except.ok ({s1 with executing_macro_id := 0, macro_params := []},
            [EngineEvent.handlerInvoked info.methodName p])
      else Except.error EngineError.macroArityMismatch) = Except.ok (t, ev) := h
    split_ifs at h with h2
    cases hh : info.handler s p with
    | error e => rw [hh] at h; exact Except.noConfusion h
    | ok s1 =>
      rw [hh] at h
      injection h with h
      injection h with ha hb
      subst ha
      exact ⟨rfl, rfl, info, rfl, hb.symm⟩

/-- C10 (amended): a write into the macro trigger sub-range never emits the
command-loaded or command-processed trace events; when the batch is not yet
exhausted it changes only the pending macro id and the parameter sequence,
leaving the register file, the bind-slot tables, the program slots and guest
memory untouched; when remainingInBatch = 0 it additionally performs exactly
the macro dispatch, whose handler may itself modify the register file. -/
theorem c10_macro_range_write (s : Maxwell3DState) (id v r : Nat)
    (hid : MacroRegistersStart ≤ id)
    (s' : Maxwell3DState) (ev : List EngineEvent)
    (h : writeReg method_handlers s id v r = .ok (s', ev)) :
    EngineEvent.commandLoaded ∉ ev ∧ EngineEvent.commandProcessed ∉ ev ∧
    (r ≠ 0 → ev = [] ∧ s' = {s with
      executing_macro_id := (if s.executing_macro_id = 0 then id else s.executing_macro_id),
      macro_params := s.macro_params ++ [v % 2 ^ 32]}) := by
  by_cases h1 : NUM_REGS ≤ id
  · unfold writeReg at h
    rw [if_pos h1] at h
    exact Except.noConfusion h
  · by_cases h2 : s.executing_macro_id ≠ 0 ∧ id ≠ s.executing_macro_id + 1
    · unfold writeReg at h
      rw [if_neg h1, if_pos h2] at h
      exact Except.noConfusion h
    · by_cases h4 : s.executing_macro_id = 0 ∧ id % 2 ≠ 0
      · unfold writeReg at h
        rw [if_neg h1, if_neg h2, if_pos hid, if_pos h4] at h
        exact Except.noConfusion h
      · rw [writeReg_macro_branch method_handlers s id v r (by omega) h2 hid h4] at h
        replace h : (if r = 0 then
            callMacroMethod method_handlers
              {(if s.executing_macro_id = 0 then {s with executing_macro_id := id} else s) with
                macro_params := (if s.executing_macro_id = 0 then {s with executing_macro_id := id} else s).macro_params ++ [v % 2 ^ 32]}
              ((if s.executing_macro_id = 0 then {s with executing_macro_id := id} else s).executing_macro_id)
              ((if s.executing_macro_id = 0 then {s with executing_macro_id := id} else s).macro_params ++ [v % 2 ^ 32])
          else .ok ({(if s.executing_macro_id = 0 then {s with executing_macro_id := id} else s) with
            macro_params := (if s.executing_macro_id = 0 then {s with executing_macro_id := id} else s).macro_params ++ [v % 2 ^ 32]}, [])) = .ok (s', ev) := h
        by_cases hr : r = 0
        · rw [if_pos hr] at h
          obtain ⟨-, -, info, -, hev⟩ := callMacroMethod_ok_shape _ _ _ _ _ _ h
          subst hev
          refine ⟨by simp, by simp, fun hc => absurd hr hc⟩
        · rw [if_neg hr] at h
          injection h with h
          injection h with ha hb
          subst ha
          subst hb
          refine ⟨by simp, by simp, fun _ => ⟨rfl, ?_⟩⟩
          by_cases hz : s.executing_macro_id = 0
          · rw [if_pos hz]
            simp [hz]
          · rw [if_neg hz]
            simp [hz]

/-- C10 counterexample: a write of the macro entry register 0xE1A with
remainingInBatch = 0 dispatches BindTextureInfoBuffer, which changes the
register file (the active constant-buffer size register goes from 0 to 7), so
the original claim that such a write never modifies the Register File fails. -/
theorem c10_counterexample :
    Except.map (fun p => p.1.regs CB_SIZE)
      (writeReg method_handlers c10state 0xE1A 0 0) = .ok 7 ∧
    c10state.regs CB_SIZE = 0 := by
  exact ⟨rfl, rfl⟩

/-- C10 witness for the amended statement: a mid-batch macro-range write
emits no events and only extends the pending state. -/
theorem c10_macro_range_write_witness :
    writeReg method_handlers c10state 0xE1A 3 1 =
      .ok ({c10state with executing_macro_id := 0xE1A, macro_params := [3]}, []) ∧
    EngineEvent.commandLoaded ∉ ([] : List EngineEvent) := by
  constructor
  · have h : writeReg method_handlers c10state 0xE1A 3 1 =
        .ok ({c10state with executing_macro_id := 0xE1A, macro_params := [3]}, []) := rfl
    obtain ⟨-, -, h3⟩ := c10_macro_range_write c10state 0xE1A 3 1 (by decide)
      {c10state with executing_macro_id := 0xE1A, macro_params := [3]} [] h
    obtain ⟨-, hs⟩ := h3 (by decide)
    exact h
  · have h : writeReg method_handlers c10state 0xE1A 3 1 =
        .ok ({c10state with executing_macro_id := 0xE1A, macro_params := [3]}, []) := rfl
    exact (c10_macro_range_write c10state 0xE1A 3 1 (by decide)
      {c10state with executing_macro_id := 0xE1A, macro_params := [3]} [] h).1

/-- A macro dispatch with all preconditions satisfied invokes the handler
and clears the pending state. -/
theorem callMacroMethod_success (tbl : List (Nat × MethodInfo))
    (s : Maxwell3DState) (m : Nat) (p c : List Nat) (info : MethodInfo)
    (t : Maxwell3DState)
    (h1 : s.uploaded_macros.lookup m = some c)
    (h2 : tbl.lookup m = some info)
    (h3 : info.arguments = p.length)
    (h4 : info.handler s p = .ok t) :
    callMacroMethod tbl s m p =
      .ok ({t with executing_macro_id := 0, macro_params := []},
           [.handlerInvoked info.methodName p]) := by
  unfold callMacroMethod
  rw [if_neg (by rw [h1]; simp), h2]
  show (if info.arguments = p.length then
      match info.handler s p with
      | Except.error e => Except.error e
      | Except.ok s1 =>
        Except.ok ({s1 with executing_macro_id := 0, macro_params := []},
          [EngineEvent.handlerInvoked info.methodName p])
    else Except.error EngineError.macroArityMismatch) = _
  rw [if_pos h3, h4]

/-- C1 counterexample: with a 3-argument handler table entry at the even
macro register 0xE00 whose code was uploaded, the split write sequence
dispatches the handler exactly once with [11, 22, 33] and clears the pending
state, but the subsequent write of value 1 to register 0x582 — a register
outside the macro range — fails (its side-effect asserts a zero code
address), so the claim's final clause does not hold for every register
outside the macro range. -/
theorem c1_counterexample :
    Except.map (fun p => (p.1.executing_macro_id, p.1.macro_params, p.2))
      (do
        let (s1, _) ← writeReg tbl0 c1state 0xE00 11 2
        let (s2, _) ← writeReg tbl0 s1 0xE01 22 1
        writeReg tbl0 s2 0xE01 33 0) =
      .ok (0, [], [.handlerInvoked "TestMacro" [11, 22, 33]]) ∧
    (do
      let (s1, _) ← writeReg tbl0 c1state 0xE00 11 2
      let (s2, _) ← writeReg tbl0 s1 0xE01 22 1
      let (s3, _) ← writeReg tbl0 s2 0xE01 33 0
      writeReg tbl0 s3 CODE_ADDRESS_HIGH 1 0) = .error .codeAddressNonzero := by
  exact ⟨rfl, rfl⟩

/-- C1 (amended): for every handler-table entry of arity 3 at an even
register E in the macro trigger sub-range whose code was uploaded, the write
sequence (E, v0, 2); (E+1, v1, 1); (E+1, v2, 0) from an idle macro state
invokes that handler exactly once with [v0, v1, v2] (one handler-invocation
event, none in the first two writes), afterwards the pending id and
parameter sequence are cleared, and a subsequent write to any register
outside the macro range with no side-effect-table entry succeeds. -/
theorem c1_split_macro_call (tbl : List (Nat × MethodInfo)) (s : Maxwell3DState)
    (E v0 v1 v2 : Nat) (info : MethodInfo) (t : Maxwell3DState)
    (hE2 : E % 2 = 0) (hE : MacroRegistersStart ≤ E) (hEr : E + 1 < NUM_REGS)
    (hidle : s.executing_macro_id = 0) (hpar : s.macro_params = [])
    (hupl : (s.uploaded_macros.lookup E).isSome = true)
    (htbl : tbl.lookup E = some info) (har : info.arguments = 3)
    (hv0 : v0 < 2 ^ 32) (hv1 : v1 < 2 ^ 32) (hv2 : v2 < 2 ^ 32)
    (hh : info.handler {s with executing_macro_id := E, macro_params := [v0, v1, v2]}
      [v0, v1, v2] = .ok t) :
    writeReg tbl s E v0 2 =
      .ok ({s with executing_macro_id := E, macro_params := [v0]}, []) ∧
    writeReg tbl {s with executing_macro_id := E, macro_params := [v0]} (E + 1) v1 1 =
      .ok ({s with executing_macro_id := E, macro_params := [v0, v1]}, []) ∧
    writeReg tbl {s with executing_macro_id := E, macro_params := [v0, v1]} (E + 1) v2 0 =
      .ok ({t with executing_macro_id := 0, macro_params := []},
           [.handlerInvoked info.methodName [v0, v1, v2]]) ∧
    (∀ id w r, id < MacroRegistersStart → sideEffectFree id →
      writeReg tbl {t with executing_macro_id := 0, macro_params := []} id w r =
        .ok ({t with executing_macro_id := 0, macro_params := [], regs := (updFn t.regs id (w % 2 ^ 32))},
             [.commandLoaded, .commandProcessed])) := by
  have hE0 : E ≠ 0 := by
    simp only [MacroRegistersStart] at hE
    omega
  have hm0 : v0 % 2 ^ 32 = v0 := Nat.mod_eq_of_lt hv0
  have hm1 : v1 % 2 ^ 32 = v1 := Nat.mod_eq_of_lt hv1
  refine ⟨?_, ?_, ?_, ?_⟩
  · rw [writeReg_macro_branch tbl s E v0 2 (by omega) (by simp [hidle]) hE
      (by simp [hE2])]
    simp only [hm0]
    simp [hidle, hpar]
  · rw [writeReg_macro_branch tbl _ (E + 1) v1 1 (by omega) (by simp) (by omega)
      (by simp [hE0])]
    simp only [hm1]
    simp [hE0]
  · rw [writeReg_macro_branch tbl _ (E + 1) v2 0 (by omega) (by simp) (by omega)
      (by simp [hE0])]
    rw [if_neg (show ¬(({s with executing_macro_id := E, macro_params := [v0, v1]} :
      Maxwell3DState).executing_macro_id = 0) from hE0)]
    show callMacroMethod tbl
      {s with executing_macro_id := E, macro_params := [v0, v1] ++ [v2 % 2 ^ 32]} E
      ([v0, v1] ++ [v2 % 2 ^ 32]) = _
    rw [Nat.mod_eq_of_lt hv2]
    obtain ⟨c, hc⟩ := Option.isSome_iff_exists.mp hupl
    exact callMacroMethod_success tbl _ E ([v0, v1] ++ [v2]) c info t hc htbl har hh
  · intro id w r hid hfree
    rw [writeReg_ordinary tbl _ id w r (by
      simp only [NUM_REGS]
      simp only [MacroRegistersStart] at hid
      omega) (by simp) hid]
    rw [applySideEffect_default _ id (w % 2 ^ 32) hfree]
    rfl

/-- C1 witness for the amended statement: the concrete split call through a
3-argument test handler at 0xE00, followed by a successful write to the
side-effect-free register 0x100. -/
theorem c1_split_macro_call_witness :
    writeReg tbl0 c1state 0xE00 11 2 =
      .ok ({c1state with executing_macro_id := 0xE00, macro_params := [11]}, []) ∧
    writeReg tbl0 {c1state with executing_macro_id := 0, macro_params := []} 0x100 5 0 =
      .ok ({c1state with executing_macro_id := 0, macro_params := [], regs := (updFn c1state.regs 0x100 5)},
           [.commandLoaded, .commandProcessed]) := by
  have H := c1_split_macro_call tbl0 c1state 0xE00 11 22 33 tinfo0
    {c1state with executing_macro_id := 0xE00, macro_params := [11, 22, 33]}
    rfl (by decide) (by decide) rfl rfl rfl rfl rfl
    (by decide) (by decide) (by decide) rfl
  exact ⟨H.1, H.2.2.2 0x100 5 0 (by decide) (by decide)⟩

theorem resolveOne_ok (s : Maxwell3DState) (address i : Nat)
    (info : FullTextureInfo) (h : resolveOne s address i = .ok info) :
    info.index = i ∧
    info.enabled = (handleTicId (handleRawAt s address i) != 0) := by
  unfold resolveOne at h
  by_cases h1 : handleTicId (handleRawAt s address i) ≠ 0
  · rw [if_pos h1] at h
    cases hg : getTICEntry s (handleTicId (handleRawAt s address i)) with
    | error e => rw [hg] at h; exact Except.noConfusion h
    | ok t =>
      rw [hg] at h
      replace h : (if handleTscId (handleRawAt s address i) ≠ 0 then
          (Except.ok { index := i, enabled := true, tic := t, tsc := getTSCEntry s (handleTscId (handleRawAt s address i)) } : Except EngineError FullTextureInfo)
        else Except.ok { index := i, enabled := true, tic := t, tsc := default }) =
        Except.ok info := h
      by_cases h2 : handleTscId (handleRawAt s address i) ≠ 0
      · rw [if_pos h2] at h
        injection h with h
        subst h
        exact ⟨rfl, (bne_iff_ne.mpr h1).symm⟩
      · rw [if_neg h2] at h
        injection h with h
        subst h
        exact ⟨rfl, (bne_iff_ne.mpr h1).symm⟩
  · rw [if_neg h1] at h
    have h1' : handleTicId (handleRawAt s address i) = 0 := not_ne_iff.mp h1
    by_cases h2 : handleTscId (handleRawAt s address i) ≠ 0
    · rw [if_pos h2] at h
      injection h with h
      subst h
      exact ⟨rfl, by simp [h1']⟩
    · rw [if_neg h2] at h
      injection h with h
      subst h
      exact ⟨rfl, by simp [h1']⟩

theorem resolveHandles_shape (s : Maxwell3DState) (address : Nat)
    (l : List Nat) : ∀ L, resolveHandles s address l = .ok L →
      L.map FullTextureInfo.index =
        l.filter (fun i => handleTicId (handleRawAt s address i) != 0) ∧
      ∀ x ∈ L, x.enabled = true := by
  induction l with
  | nil =>
    intro L h
    injection h with h
    subst h
    simp
  | cons i rest ih =>
    intro L h
    unfold resolveHandles at h
    cases ho : resolveOne s address i with
    | error e => rw [ho] at h; exact Except.noConfusion h
    | ok info =>
      rw [ho] at h
      cases hr : resolveHandles s address rest with
      | error e => rw [hr] at h; exact Except.noConfusion h
      | ok tail =>
        rw [hr] at h
        injection h with h
        subst h
        obtain ⟨hidx, hen⟩ := resolveOne_ok s address i info ho
        obtain ⟨ih1, ih2⟩ := ih tail hr
        by_cases htic : handleTicId (handleRawAt s address i) ≠ 0
        · have he : info.enabled = true := by
            rw [hen]
            simp [htic]
          rw [if_pos he]
          constructor
          · simp only [List.map_cons, List.filter_cons]
            rw [hidx, ih1]
            simp [htic]
          · intro x hx
            rcases List.mem_cons.mp hx with hx | hx
            · rw [hx]
              exact he
            · exact ih2 x hx
        · have htic' : handleTicId (handleRawAt s address i) = 0 := not_ne_iff.mp htic
          have he : info.enabled = false := by
            rw [hen]
            simp [htic']
          rw [if_neg (by rw [he]; simp)]
          constructor
          · rw [ih1, List.filter_cons]
            simp [htic']
          · exact ih2

/-- C4: GetStageTextures fails with TextureBufferNotBound when the selected
texture-info bind slot is disabled or has zero address; on success it returns,
in ascending scan order, exactly the handles with nonzero texture id, each
enabled and indexed by its zero-based position in the full scanned handle
sequence. -/
theorem c4_stage_textures_scan (s : Maxwell3DState) (stage : Nat) :
    (¬((s.shaderStages stage (s.regs TEX_CB_INDEX)).enabled = true ∧
       (s.shaderStages stage (s.regs TEX_CB_INDEX)).address ≠ 0) →
      getStageTextures s stage = .error .textureBufferNotBound) ∧
    (∀ L, getStageTextures s stage = .ok L →
      L.map FullTextureInfo.index =
        (List.range (handleScanCount
          (s.shaderStages stage (s.regs TEX_CB_INDEX)).address
          (s.shaderStages stage (s.regs TEX_CB_INDEX)).size)).filter
          (fun i => handleTicId (handleRawAt s
            (s.shaderStages stage (s.regs TEX_CB_INDEX)).address i) != 0) ∧
      ∀ x ∈ L, x.enabled = true) := by
  constructor
  · intro hno
    simp only [getStageTextures]
    rw [if_neg hno]
  · intro L h
    simp only [getStageTextures] at h
    split_ifs at h with hb
    exact resolveHandles_shape s _ _ L h

/-- C4 witness: a bound buffer with one nonzero-id handle and one zero-id
handle yields exactly one entry with index 0, and the unbound initial state
fails with TextureBufferNotBound. -/
theorem c4_stage_textures_scan_witness :
    Except.map (List.map FullTextureInfo.index) (getStageTextures c4state 4) =
      .ok [0] ∧
    getStageTextures initState 4 = .error .textureBufferNotBound := by
  constructor
  · obtain ⟨L, hL⟩ : ∃ L, getStageTextures c4state 4 = .ok L := ⟨_, rfl⟩
    have hmap := ((c4_stage_textures_scan c4state 4).2 L hL).1
    rw [hL]
    show Except.ok (L.map FullTextureInfo.index) = .ok [0]
    rw [hmap]
    rfl
  · exact (c4_stage_textures_scan initState 4).1 (by decide)

end Maxwell
